import Mathlib

/-!
# Invoice-scan dashboard: shallow embedding and verification

Shallow embedding of the invoice-scan-pdf-dashboard server
(`src/shared/schema.ts` resp. `src/unnamed/part_002`, `src/server/storage.ts`,
`src/server/routes.ts`, `src/api/index.ts`, and the Gemini extraction adapter
`src/server/services/gemini.ts` resp. `src/unnamed/part_000`).

Modelling conventions:
* ISO-8601 timestamp strings (`new Date().toISOString()`) are modelled as `Nat`.
  Equal-length ISO-8601 strings compare lexicographically in chronological
  order, so MongoDB's string comparison on `createdAt` is order-isomorphic to
  `Nat` comparison.
* JavaScript numbers on invoice amounts are modelled as `Int`.
* The MongoDB collection is a `List InvoiceDoc` in natural (insertion) order.
  `_id` carries MongoDB's unique index: stored documents have pairwise
  distinct `_id`s; theorems that need this state it as a hypothesis.
* mongoose throws a `CastError` when an id string is not a valid ObjectId;
  `validObjectId` models the 24-hex-character form.  Each storage method
  wraps its body in try/catch, so a cast failure takes the catch branch.
* Backend faults (a `countDocuments`/`find`/`save` rejection) are modelled by
  an explicit `fault : Bool` passed to the fallible primitives; the `catch`
  branches of `storage.ts` are reproduced around them.
-/

/-- A line item, `lineItemSchema` of `shared/schema.ts` (all four fields
required). -/
structure LineItem where
  description : String
  unitPrice : Int
  quantity : Int
  total : Int
deriving Repr, DecidableEq

/-- A vendor object as it can actually sit in a MongoDB document: mongoose
`required` is only enforced by `save()` validation, which
`findByIdAndUpdate` bypasses (no `runValidators`), so every field can be
absent at the document level. -/
structure Vendor where
  name : Option String
  address : Option String
  taxId : Option String
deriving Repr, DecidableEq

/-- Invoice details at the MongoDB document level (see `Vendor` for why the
schema-required fields are `Option`). A missing `lineItems` array is
modelled as `[]`. -/
structure InvoiceDetails where
  number : Option String
  date : Option String
  currency : Option String
  subtotal : Option Int
  taxPercent : Option Int
  total : Option Int
  poNumber : Option String
  poDate : Option String
  lineItems : List LineItem
deriving Repr, DecidableEq

/-- A document of the `Invoice` collection (interface `InvoiceDocument` of
`storage.ts`). -/
structure InvoiceDoc where
  _id : String
  fileId : String
  fileName : String
  vendor : Vendor
  invoice : InvoiceDetails
  createdAt : Nat
  updatedAt : Option Nat
deriving Repr, DecidableEq

/-- The API-facing record (type `Invoice` of `shared/schema.ts`: the document
with `_id` renamed to `id`). -/
structure Invoice where
  id : String
  fileId : String
  fileName : String
  vendor : Vendor
  invoice : InvoiceDetails
  createdAt : Nat
  updatedAt : Option Nat
deriving Repr, DecidableEq

/-- `vendorSchema`: what zod validation guarantees for a vendor (`name`
required). -/
structure VendorInput where
  name : String
  address : Option String
  taxId : Option String
deriving Repr, DecidableEq

/-- `invoiceSchema`: what zod validation guarantees for the invoice details
(`number`, `date`, `lineItems` required). -/
structure InvoiceDetailsInput where
  number : String
  date : String
  currency : Option String
  subtotal : Option Int
  taxPercent : Option Int
  total : Option Int
  poNumber : Option String
  poDate : Option String
  lineItems : List LineItem
deriving Repr, DecidableEq

/-- `insertInvoiceSchema` output: `invoiceDocumentSchema` without `_id`,
`createdAt`, `updatedAt`. -/
structure InsertInvoice where
  fileId : String
  fileName : String
  vendor : VendorInput
  invoice : InvoiceDetailsInput
deriving Repr, DecidableEq

/-- `updateInvoiceSchema` output and, more generally, any partial update
document handed to `findByIdAndUpdate`: every top-level key optional
(zod `.partial()` is shallow). The nested objects are document-level
(`Vendor` / `InvoiceDetails`) because mongoose casts whatever nested object
arrives without running validators on update. -/
structure UpdateInvoice where
  fileId : Option String
  fileName : Option String
  vendor : Option Vendor
  invoice : Option InvoiceDetails
  updatedAt : Option Nat
deriving Repr, DecidableEq

def vendorInputToDoc (v : VendorInput) : Vendor :=
  { name := some v.name, address := v.address, taxId := v.taxId }

def invoiceDetailsInputToDoc (i : InvoiceDetailsInput) : InvoiceDetails :=
  { number := some i.number, date := some i.date, currency := i.currency,
    subtotal := i.subtotal, taxPercent := i.taxPercent, total := i.total,
    poNumber := i.poNumber, poDate := i.poDate, lineItems := i.lineItems }

def isHexChar (c : Char) : Bool :=
  c.isDigit || ('a' ≤ c && c ≤ 'f')

/-- A well-formed ObjectId string (24 hexadecimal characters); mongoose's
cast of an id string succeeds exactly on these (the 12-byte binary form
never arrives over HTTP). -/
def validObjectId (s : String) : Bool :=
  s.length == 24 && s.toList.all isHexChar

/-- `documentToInvoice` of `storage.ts`. -/
def documentToInvoice (doc : InvoiceDoc) : Invoice :=
  { id := doc._id, fileId := doc.fileId, fileName := doc.fileName,
    vendor := doc.vendor, invoice := doc.invoice,
    createdAt := doc.createdAt, updatedAt := doc.updatedAt }

/-- The MongoDB collection state. -/
abbrev Store := List InvoiceDoc

/-- `MongoStorage.getInvoice`: `findById` (throws on a malformed id, caught
to `undefined`), else the first document with that `_id`. -/
def getInvoice (s : Store) (id : String) : Option Invoice :=
  if validObjectId id then
    (s.find? (fun d => d._id == id)).map documentToInvoice
  else
    none

/-- `MongoStorage.deleteInvoice`: `findByIdAndDelete`, `!!result`; any throw
(malformed id) is caught to `false`. The `_id` unique index means at most
one document matches. Returns the flag and the new collection. -/
def deleteInvoice (s : Store) (id : String) : Bool × Store :=
  if validObjectId id then
    if s.any (fun d => d._id == id) then
      (true, s.filter (fun d => !(d._id == id)))
    else
      (false, s)
  else
    (false, s)

/-- MongoDB `$set` semantics of
`findByIdAndUpdate(id, { ...updateData, updatedAt: now })`: each top-level
key present in the update replaces the stored value wholesale (mongoose does
not deep-merge nested objects), and `updatedAt` is always set to `now`
because the spread puts it last. -/
def applyUpdate (doc : InvoiceDoc) (u : UpdateInvoice) (now : Nat) : InvoiceDoc :=
  { doc with
    fileId := u.fileId.getD doc.fileId,
    fileName := u.fileName.getD doc.fileName,
    vendor := u.vendor.getD doc.vendor,
    invoice := u.invoice.getD doc.invoice,
    updatedAt := some now }

/-- `MongoStorage.updateInvoice`: `findByIdAndUpdate(..., { new: true })`;
a malformed id throws, caught to `undefined`; an absent id is `null`,
mapped to `undefined`. Returns the updated record and collection. -/
def updateInvoice (s : Store) (id : String) (u : UpdateInvoice) (now : Nat) :
    Option (Invoice × Store) :=
  if validObjectId id then
    match s.find? (fun d => d._id == id) with
    | some doc =>
        let doc' := applyUpdate doc u now
        some (documentToInvoice doc',
              s.map (fun d => if d._id == id then doc' else d))
    | none => none
  else
    none

/-- `MongoStorage.createInvoice`: builds the document with `createdAt := now`
and the driver-generated `_id`, saves it; a save rejection is caught and
rethrown as `Error('Failed to create invoice')`. -/
def createInvoice (fault : Bool) (s : Store) (freshId : String) (now : Nat)
    (d : InsertInvoice) : Except String (Invoice × Store) :=
  if fault then
    .error "Failed to create invoice"
  else
    let doc : InvoiceDoc :=
      { _id := freshId, fileId := d.fileId, fileName := d.fileName,
        vendor := vendorInputToDoc d.vendor,
        invoice := invoiceDetailsInputToDoc d.invoice,
        createdAt := now, updatedAt := none }
    .ok (documentToInvoice doc, s ++ [doc])

/-- Case-insensitive containment of `q.toLower` in `hay.toLower`, as a list
scan. `new RegExp(q, 'i').test(hay)` has exactly this meaning for a search
term free of regex metacharacters. -/
def charsContain (hay needle : List Char) : Bool :=
  match hay with
  | [] => needle.isEmpty
  | _ :: t => needle.isPrefixOf hay || charsContain t needle

/-- ASCII lower-casing of one character (the case folding the `'i'` regex
flag performs on the ASCII data involved here). -/
def lowerChar (c : Char) : Char :=
  if 'A' ≤ c && c ≤ 'Z' then Char.ofNat (c.toNat + 32) else c

def matchCI (field : Option String) (q : String) : Bool :=
  match field with
  | none => false
  | some v => charsContain (v.toList.map lowerChar) (q.toList.map lowerChar)

/-- The mongo query built by `getInvoices`: with a truthy search term, an
`$or` of case-insensitive regex matches on `vendor.name` and
`invoice.number`; otherwise the empty query `{}`. JavaScript `if (search)`
is false for both `undefined` and `""`. -/
def docMatches (search : Option String) (d : InvoiceDoc) : Bool :=
  match search with
  | none => true
  | some q =>
      if q.isEmpty then true
      else matchCI d.vendor.name q || matchCI d.invoice.number q

/-- `sort({ createdAt: -1 })`: later `createdAt` first. -/
def byCreatedAtDesc (a b : InvoiceDoc) : Prop :=
  b.createdAt ≤ a.createdAt

instance : DecidableRel byCreatedAtDesc := fun a b =>
  inferInstanceAs (Decidable (b.createdAt ≤ a.createdAt))

instance : IsTotal InvoiceDoc byCreatedAtDesc :=
  ⟨fun a b => Nat.le_total b.createdAt a.createdAt⟩

instance : IsTrans InvoiceDoc byCreatedAtDesc :=
  ⟨fun _ _ _ h1 h2 => Nat.le_trans h2 h1⟩

/-- `InvoiceModel.countDocuments(query)`. -/
def countDocuments (fault : Bool) (s : Store) (search : Option String) :
    Except String Nat :=
  if fault then .error "db error"
  else .ok (s.filter (docMatches search)).length

/-- `InvoiceModel.find(query).sort({createdAt:-1}).skip(offset).limit(limit)`. -/
def findSortSkipLimit (fault : Bool) (s : Store) (search : Option String)
    (offset limit : Nat) : Except String (List InvoiceDoc) :=
  if fault then .error "db error"
  else .ok ((((s.filter (docMatches search)).insertionSort byCreatedAtDesc).drop
      offset).take limit)

/-- Result shape of `getInvoices`. -/
structure InvoicesPage where
  invoices : List Invoice
  total : Nat
deriving Repr, DecidableEq

/-- `MongoStorage.getInvoices`: count, then the sorted/paged find, both under
one try/catch whose catch returns `{ invoices: [], total: 0 }`. -/
def getInvoices (fault : Bool) (s : Store) (search : Option String)
    (limit offset : Nat) : InvoicesPage :=
  match countDocuments fault s search,
        findSortSkipLimit fault s search offset limit with
  | .ok total, .ok docs =>
      { invoices := docs.map documentToInvoice, total := total }
  | _, _ => { invoices := [], total := 0 }

/-- `MongoStorage.getInvoiceByFileId`: `findOne({ fileId })`. -/
def getInvoiceByFileId (s : Store) (fileId : String) : Option Invoice :=
  (s.find? (fun d => d.fileId == fileId)).map documentToInvoice

/-- A concrete stored document used by witnesses and counterexamples. -/
def sampleDoc : InvoiceDoc :=
  { _id := "507f1f77bcf86cd799439011", fileId := "file-1",
    fileName := "invoice_sample.pdf",
    vendor := { name := some "TechCorp Solutions", address := none,
                taxId := none },
    invoice := { number := some "INV-2024-001", date := some "2024-01-15",
                 currency := some "USD", subtotal := none, taxPercent := none,
                 total := some 6000, poNumber := none, poDate := none,
                 lineItems := [{ description := "Software Development Services",
                                 unitPrice := 150, quantity := 40,
                                 total := 6000 }] },
    createdAt := 1, updatedAt := none }

example : (deleteInvoice [sampleDoc] "507f1f77bcf86cd799439011").1 = true := by
  decide

/-! ## JSON values and the response envelope -/

/-- A JSON value as produced by `res.json(...)`; `undefined` object members
are dropped by serialization, so optional fields simply contribute no key. -/
inductive Json where
  | null : Json
  | bool : Bool → Json
  | num : Int → Json
  | str : String → Json
  | arr : List Json → Json
  | obj : List (String × Json) → Json
deriving Repr

/-- An HTTP response as the router produces it: a status code and a JSON
body. -/
structure HttpResponse where
  status : Nat
  body : Json

def okEnvelope (d : Json) : Json :=
  .obj [("success", .bool true), ("data", d)]

def errEnvelope (msg : String) : Json :=
  .obj [("success", .bool false), ("error", .obj [("message", .str msg)])]

def errEnvelopeCode (msg code : String) : Json :=
  .obj [("success", .bool false),
        ("error", .obj [("message", .str msg), ("code", .str code)])]

/-- The uniform envelope of spec §4.4: exactly
`{ success: true, data }` or `{ success: false, error: { message, code? } }`. -/
def isEnvelope : Json → Bool
  | .obj [("success", .bool true), ("data", _)] => true
  | .obj [("success", .bool false),
          ("error", .obj [("message", .str _)])] => true
  | .obj [("success", .bool false),
          ("error", .obj [("message", .str _), ("code", .str _)])] => true
  | _ => false

/-! ## Serialization of records to JSON -/

def optStrField (k : String) (v : Option String) : List (String × Json) :=
  match v with
  | none => []
  | some s => [(k, .str s)]

def optIntField (k : String) (v : Option Int) : List (String × Json) :=
  match v with
  | none => []
  | some n => [(k, .num n)]

def optNatField (k : String) (v : Option Nat) : List (String × Json) :=
  match v with
  | none => []
  | some n => [(k, .num n)]

def lineItemToJson (li : LineItem) : Json :=
  .obj [("description", .str li.description), ("unitPrice", .num li.unitPrice),
        ("quantity", .num li.quantity), ("total", .num li.total)]

def vendorToJson (v : Vendor) : Json :=
  .obj (optStrField "name" v.name ++ optStrField "address" v.address ++
        optStrField "taxId" v.taxId)

def invoiceDetailsToJson (i : InvoiceDetails) : Json :=
  .obj (optStrField "number" i.number ++ optStrField "date" i.date ++
        optStrField "currency" i.currency ++ optIntField "subtotal" i.subtotal ++
        optIntField "taxPercent" i.taxPercent ++ optIntField "total" i.total ++
        optStrField "poNumber" i.poNumber ++ optStrField "poDate" i.poDate ++
        [("lineItems", .arr (i.lineItems.map lineItemToJson))])

def invoiceToJson (inv : Invoice) : Json :=
  .obj ([("id", .str inv.id), ("fileId", .str inv.fileId),
         ("fileName", .str inv.fileName), ("vendor", vendorToJson inv.vendor),
         ("invoice", invoiceDetailsToJson inv.invoice),
         ("createdAt", .num inv.createdAt)] ++
        optNatField "updatedAt" inv.updatedAt)

/-! ## zod schema parsing (`shared/schema.ts`)

zod object schemas strip unknown keys, require the non-optional fields with
the right type, and accept an absent key for `.optional()` fields. -/

def jLookup (fields : List (String × Json)) (k : String) : Option Json :=
  (fields.find? (fun kv => kv.1 == k)).map (fun kv => kv.2)

def reqStr (fields : List (String × Json)) (k : String) :
    Except String String :=
  match jLookup fields k with
  | some (.str s) => .ok s
  | _ => .error (k ++ ": Required string")

def optStr (fields : List (String × Json)) (k : String) :
    Except String (Option String) :=
  match jLookup fields k with
  | none => .ok none
  | some (.str s) => .ok (some s)
  | some _ => .error (k ++ ": Expected string")

def reqInt (fields : List (String × Json)) (k : String) :
    Except String Int :=
  match jLookup fields k with
  | some (.num n) => .ok n
  | _ => .error (k ++ ": Required number")

def optInt (fields : List (String × Json)) (k : String) :
    Except String (Option Int) :=
  match jLookup fields k with
  | none => .ok none
  | some (.num n) => .ok (some n)
  | some _ => .error (k ++ ": Expected number")

def asObj : Json → Except String (List (String × Json))
  | .obj fields => .ok fields
  | _ => .error "Expected object"

/-- `lineItemSchema.parse`. -/
def parseLineItem (j : Json) : Except String LineItem := do
  let f ← asObj j
  let description ← reqStr f "description"
  let unitPrice ← reqInt f "unitPrice"
  let quantity ← reqInt f "quantity"
  let total ← reqInt f "total"
  pure { description := description, unitPrice := unitPrice,
         quantity := quantity, total := total }

/-- `vendorSchema.parse`. -/
def parseVendor (j : Json) : Except String VendorInput := do
  let f ← asObj j
  let name ← reqStr f "name"
  let address ← optStr f "address"
  let taxId ← optStr f "taxId"
  pure { name := name, address := address, taxId := taxId }

/-- `invoiceSchema.parse`. -/
def parseInvoiceDetails (j : Json) : Except String InvoiceDetailsInput := do
  let f ← asObj j
  let number ← reqStr f "number"
  let date ← reqStr f "date"
  let currency ← optStr f "currency"
  let subtotal ← optInt f "subtotal"
  let taxPercent ← optInt f "taxPercent"
  let total ← optInt f "total"
  let poNumber ← optStr f "poNumber"
  let poDate ← optStr f "poDate"
  let lineItems ← match jLookup f "lineItems" with
    | some (.arr items) => items.mapM parseLineItem
    | _ => .error "lineItems: Required array"
  pure { number := number, date := date, currency := currency,
         subtotal := subtotal, taxPercent := taxPercent, total := total,
         poNumber := poNumber, poDate := poDate, lineItems := lineItems }

/-- `insertInvoiceSchema.parse`. -/
def insertInvoiceSchemaParse (j : Json) : Except String InsertInvoice := do
  let f ← asObj j
  let fileId ← reqStr f "fileId"
  let fileName ← reqStr f "fileName"
  let vendor ← match jLookup f "vendor" with
    | some v => parseVendor v
    | none => .error "vendor: Required"
  let invoice ← match jLookup f "invoice" with
    | some i => parseInvoiceDetails i
    | none => .error "invoice: Required"
  pure { fileId := fileId, fileName := fileName, vendor := vendor,
         invoice := invoice }

/-- Timestamp strings are modelled as `Nat`, so the `updatedAt` member of the
update schema parses a non-negative number. -/
def optNat (fields : List (String × Json)) (k : String) :
    Except String (Option Nat) :=
  match jLookup fields k with
  | none => .ok none
  | some (.num n) => if n < 0 then .error (k ++ ": Expected timestamp")
                     else .ok (some n.toNat)
  | some _ => .error (k ++ ": Expected timestamp")

/-- `updateInvoiceSchema.parse`: zod `.partial()` is shallow, so each
top-level key is optional, but a supplied `vendor`/`invoice` must satisfy
the full nested schema. -/
def updateInvoiceSchemaParse (j : Json) : Except String UpdateInvoice := do
  let f ← asObj j
  let fileId ← optStr f "fileId"
  let fileName ← optStr f "fileName"
  let vendor : Option Vendor ← match jLookup f "vendor" with
    | none => pure none
    | some v => do
        let x ← parseVendor v
        pure (some (vendorInputToDoc x))
  let invoice : Option InvoiceDetails ← match jLookup f "invoice" with
    | none => pure none
    | some i => do
        let x ← parseInvoiceDetails i
        pure (some (invoiceDetailsInputToDoc x))
  let updatedAt ← optNat f "updatedAt"
  pure { fileId := fileId, fileName := fileName, vendor := vendor,
         invoice := invoice, updatedAt := updatedAt }

/-! ## Extraction adapter (`services/gemini.ts`) -/

/-- The extraction result type (`extractionResponseSchema`:
`{ vendor: vendorSchema, invoice: invoiceSchema }`). -/
structure Extraction where
  vendor : VendorInput
  invoice : InvoiceDetailsInput
deriving Repr, DecidableEq

/-- `extractionResponseSchema.parse`. -/
def extractionSchemaParse (j : Json) : Except String Extraction := do
  let f ← asObj j
  let vendor ← match jLookup f "vendor" with
    | some v => parseVendor v
    | none => .error "vendor: Required"
  let invoice ← match jLookup f "invoice" with
    | some i => parseInvoiceDetails i
    | none => .error "invoice: Required"
  pure { vendor := vendor, invoice := invoice }

/-- The system prompt of `extractInvoiceData` (contents abbreviated to the
first line; the claims only depend on its being a fixed string). -/
def systemPrompt : String :=
  "You are an expert invoice data extraction system."

/-- The single request sent to `ai.models.generateContent`. `pdfBase64`
holds the file bytes; `Buffer.toString('base64')` is an injective transport
encoding and is elided. -/
structure AIRequest where
  model : String
  pdfBase64 : List Nat
  systemInstruction : String
deriving Repr, DecidableEq

def buildAIRequest (fileBuffer : List Nat) : AIRequest :=
  { model := "gemini-2.5-pro", pdfBase64 := fileBuffer,
    systemInstruction := systemPrompt }

/-- What the external service can hand back: `response.text` empty or
absent, a raw string `JSON.parse` rejects (with that error's message), or a
parsed JSON value. -/
inductive GenContentResult where
  | empty : GenContentResult
  | malformed : String → GenContentResult
  | parsed : Json → GenContentResult

/-- `extractInvoiceData(fileBuffer, fileName)` over an oracle for the
external call: builds the fixed-model request, requires non-empty output,
JSON-parses it, validates with `extractionResponseSchema`; every failure is
rethrown as `Failed to extract invoice data: …`. The `fileName` parameter
is accepted and unused, as in the source. -/
def extractInvoiceData (genContent : AIRequest → GenContentResult)
    (fileBuffer : List Nat) (fileName : String) : Except String Extraction :=
  let _ := fileName
  match genContent (buildAIRequest fileBuffer) with
  | .empty =>
      .error "Failed to extract invoice data: Empty response from Gemini API"
  | .malformed msg => .error ("Failed to extract invoice data: " ++ msg)
  | .parsed j =>
      match extractionSchemaParse j with
      | .ok v => .ok v
      | .error msg => .error ("Failed to extract invoice data: " ++ msg)

/-! ## Ephemeral file cache (`fileStorage` map of `routes.ts`) -/

/-- A cached upload. -/
structure CachedFile where
  buffer : List Nat
  fileName : String
  uploadedAt : Nat
deriving Repr, DecidableEq

/-- The in-process `Map<string, …>`. -/
abbrev FileCache := List (String × CachedFile)

/-- `Map.prototype.get`. -/
def cacheGet (c : FileCache) (k : String) : Option CachedFile :=
  (c.find? (fun kv => kv.1 == k)).map (fun kv => kv.2)

/-- `Map.prototype.set`: replace an existing key, else append. -/
def cacheSet (c : FileCache) (k : String) (v : CachedFile) : FileCache :=
  if c.any (fun kv => kv.1 == k) then
    c.map (fun kv => if kv.1 == k then (k, v) else kv)
  else
    c ++ [(k, v)]

/-! ## Request router (`routes.ts`, with the serverless `api/index.ts`
variant where the two differ) -/

/-- A multipart upload as multer presents it (memory storage:
`size = buffer.length`). -/
structure UploadedFile where
  mimetype : String
  originalname : String
  buffer : List Nat
  size : Nat
deriving Repr, DecidableEq

def maxUploadBytes : Nat := 25 * 1024 * 1024

/-- The multer gate that runs before the upload handler: the `fileFilter`
accepts only `application/pdf`, and `limits.fileSize` aborts any payload
over 25 MB. -/
def multerAccepts (f : UploadedFile) : Bool :=
  f.mimetype == "application/pdf" && f.size ≤ maxUploadBytes

/-- `POST /api/upload`. A multer rejection happens before the handler body,
so the cache is untouched; the serverless router maps that rejection (and a
missing file) to a 400 envelope. On success the handler stores the buffer
under a fresh UUID and answers with the upload receipt. -/
def uploadRoute (cache : FileCache) (file : Option UploadedFile)
    (freshId : String) (now : Nat) : HttpResponse × FileCache :=
  match file with
  | none =>
      ({ status := 400,
         body := errEnvelope "No file uploaded or invalid file type" }, cache)
  | some f =>
      if multerAccepts f then
        let cache' := cacheSet cache freshId
          { buffer := f.buffer, fileName := f.originalname, uploadedAt := now }
        ({ status := 200,
           body := okEnvelope (.obj
             [("fileId", .str freshId), ("fileName", .str f.originalname),
              ("fileSize", .num f.size), ("uploadedAt", .num now)]) }, cache')
      else
        ({ status := 400,
           body := errEnvelope "No file uploaded or invalid file type" },
         cache)

/-- Body of `POST /api/extract`:
`const { fileId, model = 'gemini' } = req.body`. -/
structure ExtractRequestBody where
  fileId : Option String
  model : Option String
deriving Repr, DecidableEq

/-- Result of the extract route, together with the list of
`extractInvoiceData(buffer, fileName)` invocations it performed. -/
structure ExtractOutcome where
  response : HttpResponse
  adapterCalls : List (List Nat × String)

/-- `POST /api/extract`: 400 on a falsy `fileId` (`undefined` or `""`),
404 when the cache has no entry, else delegate to the adapter; an adapter
throw becomes a 500 with code `EXTRACTION_ERROR`. -/
def extractRoute (cache : FileCache)
    (genContent : AIRequest → GenContentResult) (req : ExtractRequestBody) :
    ExtractOutcome :=
  match req.fileId with
  | none =>
      { response := { status := 400, body := errEnvelope "File ID is required" },
        adapterCalls := [] }
  | some fid =>
      if fid.isEmpty then
        { response :=
            { status := 400, body := errEnvelope "File ID is required" },
          adapterCalls := [] }
      else
        match cacheGet cache fid with
        | none =>
            { response := { status := 404, body := errEnvelope "File not found" },
              adapterCalls := [] }
        | some fileData =>
            match extractInvoiceData genContent fileData.buffer
                fileData.fileName with
            | .ok extracted =>
                { response :=
                    { status := 200,
                      body := okEnvelope (.obj
                        [("vendor",
                          vendorToJson (vendorInputToDoc extracted.vendor)),
                         ("invoice",
                          invoiceDetailsToJson
                            (invoiceDetailsInputToDoc extracted.invoice))]) },
                  adapterCalls := [(fileData.buffer, fileData.fileName)] }
            | .error msg =>
                { response :=
                    { status := 500, body := errEnvelopeCode msg "EXTRACTION_ERROR" },
                  adapterCalls := [(fileData.buffer, fileData.fileName)] }

/-- `GET /api/invoices`: the storage call swallows its own faults, so the
route always answers 200 with the page and the echoed paging values. -/
def listRoute (fault : Bool) (s : Store) (search : Option String)
    (limit offset : Nat) : HttpResponse :=
  let r := getInvoices fault s search limit offset
  { status := 200,
    body := okEnvelope (.obj
      [("invoices", .arr (r.invoices.map invoiceToJson)),
       ("total", .num r.total), ("limit", .num limit),
       ("offset", .num offset)]) }

/-- `GET /api/invoices/:id`. -/
def getRoute (s : Store) (id : String) : HttpResponse :=
  match getInvoice s id with
  | none => { status := 404, body := errEnvelope "Invoice not found" }
  | some inv => { status := 200, body := okEnvelope (invoiceToJson inv) }

/-- `POST /api/invoices`: zod-validate, then create. The single catch maps
every throw — a zod failure and equally a store write failure — to a 400
with code `VALIDATION_ERROR`. -/
def createRoute (fault : Bool) (s : Store) (body : Json) (freshId : String)
    (now : Nat) : HttpResponse × Store :=
  match insertInvoiceSchemaParse body with
  | .error msg => ({ status := 400, body := errEnvelopeCode msg "VALIDATION_ERROR" }, s)
  | .ok d =>
      match createInvoice fault s freshId now d with
      | .error msg =>
          ({ status := 400, body := errEnvelopeCode msg "VALIDATION_ERROR" }, s)
      | .ok (inv, s') =>
          ({ status := 201, body := okEnvelope (invoiceToJson inv) }, s')

/-- `PUT /api/invoices/:id`. -/
def putRoute (s : Store) (id : String) (body : Json) (now : Nat) :
    HttpResponse × Store :=
  match updateInvoiceSchemaParse body with
  | .error msg => ({ status := 400, body := errEnvelopeCode msg "VALIDATION_ERROR" }, s)
  | .ok u =>
      match updateInvoice s id u now with
      | none => ({ status := 404, body := errEnvelope "Invoice not found" }, s)
      | some (inv, s') =>
          ({ status := 200, body := okEnvelope (invoiceToJson inv) }, s')

/-- `DELETE /api/invoices/:id`: note the success body is
`{ success: true, message: 'Invoice deleted successfully' }` — there is no
`data` member. -/
def deleteRoute (s : Store) (id : String) : HttpResponse × Store :=
  let r := deleteInvoice s id
  if r.1 then
    ({ status := 200,
       body := .obj [("success", .bool true),
                     ("message", .str "Invoice deleted successfully")] }, r.2)
  else
    ({ status := 404, body := errEnvelope "Invoice not found" }, r.2)

/-! ## Envelope helper lemmas -/

theorem isEnvelope_okEnvelope (d : Json) : isEnvelope (okEnvelope d) = true := rfl

theorem isEnvelope_errEnvelope (msg : String) :
    isEnvelope (errEnvelope msg) = true := rfl

theorem isEnvelope_errEnvelopeCode (msg code : String) :
    isEnvelope (errEnvelopeCode msg code) = true := rfl

/-! ## Claims -/

/-- C9: a backend fault during `getInvoices` is swallowed to
`{ invoices: [], total: 0 }`, and the list route then answers with a 200
success envelope identical to the one a genuinely empty, healthy store
produces — list read failures are never surfaced as errors. -/
theorem getInvoices_fault_swallowed (s : Store) (search : Option String)
    (limit offset : Nat) :
    getInvoices true s search limit offset = { invoices := [], total := 0 } ∧
    listRoute true s search limit offset = listRoute false [] search limit offset ∧
    (listRoute true s search limit offset).status = 200 ∧
    isEnvelope (listRoute true s search limit offset).body = true := by
  refine ⟨rfl, ?_, rfl, rfl⟩
  simp [listRoute, getInvoices, countDocuments, findSortSkipLimit,
        List.insertionSort]

/-- C10: the optional `model` member of the extract request body is bound
but never read, so two extract requests differing only in `model` produce
identical outcomes (response and adapter invocations), and the request the
adapter sends to the AI service always carries the fixed model
`gemini-2.5-pro`. -/
theorem extract_model_noninterference (cache : FileCache)
    (genContent : AIRequest → GenContentResult) (fid : Option String)
    (m1 m2 : Option String) :
    extractRoute cache genContent { fileId := fid, model := m1 } =
      extractRoute cache genContent { fileId := fid, model := m2 } ∧
    ∀ fileBuffer, (buildAIRequest fileBuffer).model = "gemini-2.5-pro" :=
  ⟨rfl, fun _ => rfl⟩

/-- C3: with a non-empty `fileId` that has no cache entry, the extract route
answers 404 and never invokes the AI adapter; with a cached `fileId` it
delegates to the adapter on the cached bytes and, when the adapter
succeeds, returns the extraction under `data` in a 200 success envelope. -/
theorem extract_requires_cached_file (cache : FileCache)
    (genContent : AIRequest → GenContentResult) (fid : String)
    (m : Option String) (hne : fid.isEmpty = false) :
    (cacheGet cache fid = none →
      (extractRoute cache genContent
          { fileId := some fid, model := m }).response.status = 404 ∧
      (extractRoute cache genContent
          { fileId := some fid, model := m }).adapterCalls = []) ∧
    (∀ fd, cacheGet cache fid = some fd →
      (extractRoute cache genContent
          { fileId := some fid, model := m }).adapterCalls =
        [(fd.buffer, fd.fileName)] ∧
      ∀ e, extractInvoiceData genContent fd.buffer fd.fileName = .ok e →
        (extractRoute cache genContent
            { fileId := some fid, model := m }).response =
          { status := 200,
            body := okEnvelope (.obj
              [("vendor", vendorToJson (vendorInputToDoc e.vendor)),
               ("invoice", invoiceDetailsToJson
                  (invoiceDetailsInputToDoc e.invoice))]) }) := by
  constructor
  · intro h
    simp [extractRoute, hne, h]
  · intro fd h
    constructor
    · cases hx : extractInvoiceData genContent fd.buffer fd.fileName <;>
        simp [extractRoute, hne, h, hx]
    · intro e he
      simp [extractRoute, hne, h, he]

/-- C3 witness: an unknown `fileId` on an empty cache concretely yields 404
with no adapter call. -/
theorem extract_requires_cached_file_witness :
    ("file-1" : String).isEmpty = false ∧
    (extractRoute [] (fun _ => GenContentResult.empty)
        { fileId := some "file-1", model := none }).response.status = 404 ∧
    (extractRoute [] (fun _ => GenContentResult.empty)
        { fileId := some "file-1", model := none }).adapterCalls = [] :=
  ⟨by decide,
   (extract_requires_cached_file [] (fun _ => GenContentResult.empty)
      "file-1" none (by decide)).1 (by decide)⟩

/-- C4: on a collection whose stored ids are well-formed ObjectIds,
`deleteInvoice` returns `true` exactly when a record with the given id
existed (and was removed — a subsequent `getInvoice` finds nothing), and
returns `false`, never throwing, for a missing or malformed id. -/
theorem deleteInvoice_true_iff_existed (s : Store) (id : String)
    (hids : ∀ d ∈ s, validObjectId d._id = true) :
    ((deleteInvoice s id).1 = true ↔ ∃ d ∈ s, d._id = id) ∧
    getInvoice (deleteInvoice s id).2 id = none := by
  by_cases hv : validObjectId id = true
  · by_cases hex : s.any (fun d => d._id == id) = true
    · have hfind : List.find? (fun d => d._id == id)
          (s.filter (fun d => !(d._id == id))) = none := by
        rw [List.find?_eq_none]
        intro d hd
        have hm := List.mem_filter.mp hd
        simpa using hm.2
      constructor
      · simp only [deleteInvoice, hv, if_true, hex]
        simpa using List.any_eq_true.mp hex
      · simp [deleteInvoice, hv, hex, getInvoice, hfind]
    · rw [Bool.not_eq_true] at hex
      have hall := List.any_eq_false.mp hex
      have hnone : s.find? (fun d => d._id == id) = none :=
        List.find?_eq_none.mpr hall
      have hdel : deleteInvoice s id = (false, s) := by
        simp [deleteInvoice, hv, hex]
      constructor
      · rw [hdel]
        simp only [Bool.false_eq_true, false_iff]
        rintro ⟨d, hd, hdid⟩
        exact hall d hd (by simp [hdid])
      · rw [hdel]
        simp [getInvoice, hv, hnone]
  · rw [Bool.not_eq_true] at hv
    have hdel : deleteInvoice s id = (false, s) := by
      simp [deleteInvoice, hv]
    constructor
    · rw [hdel]
      simp only [Bool.false_eq_true, false_iff]
      rintro ⟨d, hd, hdid⟩
      have hd' := hids d hd
      rw [hdid, hv] at hd'
      exact Bool.false_ne_true hd'
    · rw [hdel]
      simp [getInvoice, hv]

/-- C4 witness: deleting the one stored record concretely returns `true`
and a following lookup misses. -/
theorem deleteInvoice_true_iff_existed_witness :
    (∀ d ∈ [sampleDoc], validObjectId d._id = true) ∧
    (((deleteInvoice [sampleDoc] "507f1f77bcf86cd799439011").1 = true ↔
        ∃ d ∈ [sampleDoc], d._id = "507f1f77bcf86cd799439011") ∧
      getInvoice (deleteInvoice [sampleDoc] "507f1f77bcf86cd799439011").2
        "507f1f77bcf86cd799439011" = none) :=
  ⟨by decide, deleteInvoice_true_iff_existed [sampleDoc] _ (by decide)⟩

/-- C7: a non-PDF content type or a payload over 25 MB is stopped by the
multer gate before the upload handler runs, so the file cache is unchanged;
an accepted upload is stored under the generated id and answered with
`{fileId, fileName, fileSize, uploadedAt}` in a success envelope. -/
theorem upload_rejected_before_cache (cache : FileCache) (f : UploadedFile)
    (freshId : String) (now : Nat) :
    ((f.mimetype ≠ "application/pdf" ∨ maxUploadBytes < f.size) →
      (uploadRoute cache (some f) freshId now).2 = cache) ∧
    (multerAccepts f = true →
      (uploadRoute cache (some f) freshId now).2 =
        cacheSet cache freshId
          { buffer := f.buffer, fileName := f.originalname,
            uploadedAt := now } ∧
      (uploadRoute cache (some f) freshId now).1 =
        { status := 200,
          body := okEnvelope (.obj
            [("fileId", .str freshId), ("fileName", .str f.originalname),
             ("fileSize", .num f.size), ("uploadedAt", .num now)]) }) := by
  constructor
  · intro h
    have hacc : multerAccepts f = false := by
      rcases h with h | h
      · simp [multerAccepts, h]
      · simp [multerAccepts]
        intro _
        omega
    simp [uploadRoute, hacc]
  · intro hacc
    exact ⟨by simp [uploadRoute, hacc], by simp [uploadRoute, hacc]⟩

/-- A concrete non-PDF upload attempt. -/
def textUpload : UploadedFile :=
  { mimetype := "text/plain", originalname := "a.txt", buffer := [1],
    size := 1 }

/-- C7 witness: the concrete non-PDF upload leaves the cache unchanged. -/
theorem upload_rejected_before_cache_witness :
    (textUpload.mimetype ≠ "application/pdf" ∨
      maxUploadBytes < textUpload.size) ∧
    (uploadRoute [] (some textUpload) "u-1" 7).2 = [] :=
  ⟨Or.inl (by decide),
   (upload_rejected_before_cache [] textUpload "u-1" 7).1
     (Or.inl (by decide))⟩

/-- C8: a successful create assigns the driver-generated id (non-empty,
since a well-formed ObjectId has 24 characters), stamps `createdAt` with
the current time, and the persisted record round-trips: an immediate
`getInvoice` with that id returns exactly the record the create returned. -/
theorem createInvoice_roundtrip (s : Store) (freshId : String) (now : Nat)
    (d : InsertInvoice) (hvalid : validObjectId freshId = true)
    (hfresh : ∀ doc ∈ s, doc._id ≠ freshId) :
    ∃ inv s', createInvoice false s freshId now d = .ok (inv, s') ∧
      inv.id = freshId ∧ inv.id ≠ "" ∧ inv.createdAt = now ∧
      getInvoice s' freshId = some inv := by
  refine ⟨_, _, rfl, rfl, ?_, rfl, ?_⟩
  · intro h0
    have h0' : freshId = "" := h0
    rw [h0'] at hvalid
    simp [validObjectId] at hvalid
  · simp only [getInvoice, hvalid, if_true]
    rw [List.find?_append]
    have h1 : s.find? (fun d' => d'._id == freshId) = none := by
      rw [List.find?_eq_none]
      intro x hx
      simpa using hfresh x hx
    rw [h1]
    simp

/-- C8 witness: a concrete create into the empty store round-trips through
`getInvoice`. -/
def sampleInsert : InsertInvoice :=
  { fileId := "file-1", fileName := "invoice_sample.pdf",
    vendor := { name := "TechCorp Solutions", address := none,
                taxId := none },
    invoice := { number := "INV-2024-001", date := "2024-01-15",
                 currency := none, subtotal := none, taxPercent := none,
                 total := none, poNumber := none, poDate := none,
                 lineItems := [] } }

theorem createInvoice_roundtrip_witness :
    validObjectId "507f1f77bcf86cd799439011" = true ∧
    ∃ inv s', createInvoice false [] "507f1f77bcf86cd799439011" 5 sampleInsert
        = .ok (inv, s') ∧
      inv.id = "507f1f77bcf86cd799439011" ∧ inv.id ≠ "" ∧ inv.createdAt = 5 ∧
      getInvoice s' "507f1f77bcf86cd799439011" = some inv :=
  ⟨by decide,
   createInvoice_roundtrip [] "507f1f77bcf86cd799439011" 5 sampleInsert
     (by decide) (by decide)⟩

/-- A concrete schema-valid create body. -/
def sampleBodyJson : Json :=
  .obj [("fileId", .str "file-1"), ("fileName", .str "invoice_sample.pdf"),
        ("vendor", .obj [("name", .str "TechCorp Solutions")]),
        ("invoice", .obj [("number", .str "INV-2024-001"),
                          ("date", .str "2024-01-15"),
                          ("lineItems", .arr [])])]

/-- C2 counterexample: on a schema-valid body whose store write fails, the
create route answers 400 with code `VALIDATION_ERROR` (the handler's single
catch), not 500 — so a persistence failure is indistinguishable from a
validation failure. -/
theorem create_store_failure_not_500 :
    insertInvoiceSchemaParse sampleBodyJson = .ok sampleInsert ∧
    (createRoute true [] sampleBodyJson "507f1f77bcf86cd799439011" 5).1.status
      = 400 ∧
    (createRoute true [] sampleBodyJson "507f1f77bcf86cd799439011" 5).1.status
      ≠ 500 ∧
    (createRoute true [] sampleBodyJson "507f1f77bcf86cd799439011" 5).1.body =
      errEnvelopeCode "Failed to create invoice" "VALIDATION_ERROR" :=
  ⟨rfl, rfl, by decide, rfl⟩

/-- C2 amended: for every create whose body passes schema validation but
whose store write fails, the route answers HTTP 400 with code
`VALIDATION_ERROR` and message `Failed to create invoice`, leaving the
store unchanged. -/
theorem create_store_failure_maps_to_400 (s : Store) (body : Json)
    (freshId : String) (now : Nat) (d : InsertInvoice)
    (hparse : insertInvoiceSchemaParse body = .ok d) :
    (createRoute true s body freshId now).1.status = 400 ∧
    (createRoute true s body freshId now).1.body =
      errEnvelopeCode "Failed to create invoice" "VALIDATION_ERROR" ∧
    (createRoute true s body freshId now).2 = s := by
  simp [createRoute, hparse, createInvoice]

/-- C2 witness: the amended mapping at the concrete body. -/
theorem create_store_failure_maps_to_400_witness :
    insertInvoiceSchemaParse sampleBodyJson = .ok sampleInsert ∧
    ((createRoute true [] sampleBodyJson "507f1f77bcf86cd799439011" 5).1.status
        = 400 ∧
      (createRoute true [] sampleBodyJson "507f1f77bcf86cd799439011" 5).1.body
        = errEnvelopeCode "Failed to create invoice" "VALIDATION_ERROR" ∧
      (createRoute true [] sampleBodyJson "507f1f77bcf86cd799439011" 5).2
        = []) :=
  ⟨rfl,
   create_store_failure_maps_to_400 [] sampleBodyJson
     "507f1f77bcf86cd799439011" 5 sampleInsert rfl⟩

/-- The mongoose cast of the partial update body `{invoice: {total: 500}}`:
only `invoice.total` is present; a missing `lineItems` is modelled as `[]`. -/
def wipeUpdate : UpdateInvoice :=
  { fileId := none, fileName := none, vendor := none,
    invoice := some { number := none, date := none, currency := none,
                      subtotal := none, taxPercent := none,
                      total := some 500, poNumber := none, poDate := none,
                      lineItems := [] },
    updatedAt := none }

/-- C1 counterexample: updating a stored record with a body supplying only
`invoice.total` erases the sibling nested field `invoice.number` (MongoDB
`$set` replaces the whole `invoice` object), contradicting the claim that
sibling nested fields are left unchanged. -/
theorem updateInvoice_wipes_nested_siblings :
    sampleDoc.invoice.number = some "INV-2024-001" ∧
    (updateInvoice [sampleDoc] "507f1f77bcf86cd799439011" wipeUpdate 5).map
      (fun p => p.1.invoice.number) = some none :=
  ⟨rfl, by decide⟩

/-- C1 amended: `updateInvoice` performs a top-level `$set`: every supplied
top-level field replaces the stored value wholesale (so a partial nested
`invoice` replaces the entire `invoice` object), `createdAt` and unsupplied
top-level fields are unchanged, `updatedAt` is refreshed to the current
time — strictly later than the prior value whenever the clock advanced —
and the full updated record is returned. -/
theorem updateInvoice_toplevel_set (s : Store) (id : String)
    (u : UpdateInvoice) (now : Nat) (doc : InvoiceDoc)
    (hvalid : validObjectId id = true)
    (hfind : s.find? (fun d => d._id == id) = some doc)
    (hclock : doc.updatedAt.getD doc.createdAt < now) :
    updateInvoice s id u now =
      some (documentToInvoice (applyUpdate doc u now),
            s.map (fun d => if d._id == id then applyUpdate doc u now else d)) ∧
    (documentToInvoice (applyUpdate doc u now)).createdAt = doc.createdAt ∧
    (documentToInvoice (applyUpdate doc u now)).updatedAt = some now ∧
    (∀ t, doc.updatedAt = some t → t < now) ∧
    (u.fileId = none → (applyUpdate doc u now).fileId = doc.fileId) ∧
    (u.fileName = none → (applyUpdate doc u now).fileName = doc.fileName) ∧
    (u.vendor = none → (applyUpdate doc u now).vendor = doc.vendor) ∧
    (u.invoice = none → (applyUpdate doc u now).invoice = doc.invoice) ∧
    (∀ inv', u.invoice = some inv' → (applyUpdate doc u now).invoice = inv') := by
  refine ⟨by simp [updateInvoice, hvalid, hfind], rfl, rfl, ?_, ?_, ?_, ?_, ?_, ?_⟩
  · intro t ht
    rw [ht] at hclock
    simpa using hclock
  · intro h
    simp [applyUpdate, h]
  · intro h
    simp [applyUpdate, h]
  · intro h
    simp [applyUpdate, h]
  · intro h
    simp [applyUpdate, h]
  · intro inv' h
    simp [applyUpdate, h]

/-- C1 witness: the amended semantics at a concrete stored record. -/
theorem updateInvoice_toplevel_set_witness :
    sampleDoc.updatedAt.getD sampleDoc.createdAt < 5 ∧
    (documentToInvoice (applyUpdate sampleDoc wipeUpdate 5)).createdAt
      = sampleDoc.createdAt :=
  ⟨by decide,
   (updateInvoice_toplevel_set [sampleDoc] "507f1f77bcf86cd799439011"
      wipeUpdate 5 sampleDoc (by decide) (by decide) (by decide)).2.1⟩

/-- C6 counterexample: the DELETE success response body is
`{ success: true, message: … }` — it has no `data` member and is not the
uniform envelope. -/
theorem deleteRoute_success_not_envelope :
    (deleteRoute [sampleDoc] "507f1f77bcf86cd799439011").1.body =
      Json.obj [("success", .bool true),
                ("message", .str "Invoice deleted successfully")] ∧
    isEnvelope (deleteRoute [sampleDoc] "507f1f77bcf86cd799439011").1.body
      = false :=
  ⟨rfl, rfl⟩

/-- C6 amended: every response of the upload, extract, list, get, create and
update handlers is the uniform envelope, and the delete handler's responses
are the uniform envelope exactly when deletion did not succeed — the DELETE
success body is `{ success: true, message }` instead. -/
theorem router_envelope_except_delete_success :
    (∀ cache file freshId now,
      isEnvelope (uploadRoute cache file freshId now).1.body = true) ∧
    (∀ cache genContent req,
      isEnvelope (extractRoute cache genContent req).response.body = true) ∧
    (∀ fault s search limit offset,
      isEnvelope (listRoute fault s search limit offset).body = true) ∧
    (∀ s id, isEnvelope (getRoute s id).body = true) ∧
    (∀ fault s body freshId now,
      isEnvelope (createRoute fault s body freshId now).1.body = true) ∧
    (∀ s id body now,
      isEnvelope (putRoute s id body now).1.body = true) ∧
    (∀ s id,
      isEnvelope (deleteRoute s id).1.body = !(deleteInvoice s id).1) := by
  refine ⟨?_, ?_, ?_, ?_, ?_, ?_, ?_⟩
  · intro cache file freshId now
    cases file with
    | none => rfl
    | some f =>
        by_cases h : multerAccepts f = true
        · simp [uploadRoute, h, isEnvelope_okEnvelope]
        · simp [uploadRoute, h, isEnvelope_errEnvelope]
  · intro cache genContent req
    unfold extractRoute
    split
    · rfl
    · split
      · rfl
      · split
        · rfl
        · split
          · rfl
          · rfl
  · intro fault s search limit offset
    rfl
  · intro s id
    unfold getRoute
    split
    · rfl
    · rfl
  · intro fault s body freshId now
    unfold createRoute
    split
    · rfl
    · split
      · rfl
      · rfl
  · intro s id body now
    unfold putRoute
    split
    · rfl
    · split
      · rfl
      · rfl
  · intro s id
    cases hb : (deleteInvoice s id).1 <;>
      simp [deleteRoute, hb, isEnvelope, errEnvelope]

/-- C5: `getInvoices` returns exactly the records matching the search term
case-insensitively on `vendor.name` or `invoice.number` (all records when
the term is absent), ordered by `createdAt` descending, with `total` the
count of all matches ignoring pagination and the returned page bounded by
`limit`/`offset`. -/
theorem getInvoices_search_semantics (s : Store) (search : Option String)
    (limit offset : Nat) :
    (getInvoices false s search limit offset).total
      = (s.filter (docMatches search)).length ∧
    (getInvoices false s search limit offset).invoices
      = ((((s.filter (docMatches search)).insertionSort byCreatedAtDesc).drop
            offset).take limit).map documentToInvoice ∧
    (∀ inv ∈ (getInvoices false s search limit offset).invoices,
      ∃ d ∈ s, docMatches search d = true ∧ inv = documentToInvoice d) ∧
    (getInvoices false s search limit offset).invoices.Pairwise
      (fun a b => b.createdAt ≤ a.createdAt) ∧
    (getInvoices false s search limit offset).invoices.length ≤ limit ∧
    (getInvoices false s none limit offset).invoices
      = (((s.insertionSort byCreatedAtDesc).drop offset).take limit).map
          documentToInvoice ∧
    (getInvoices false s none limit offset).total = s.length := by
  have hfilt : s.filter (docMatches none) = s := by
    simp [docMatches]
  refine ⟨rfl, rfl, ?_, ?_, ?_, ?_, ?_⟩
  · intro inv hm
    have hm' : inv ∈ ((((s.filter (docMatches search)).insertionSort
        byCreatedAtDesc).drop offset).take limit).map documentToInvoice := hm
    obtain ⟨d, hd, rfl⟩ := List.mem_map.mp hm'
    have hd1 : d ∈ (s.filter (docMatches search)).insertionSort
        byCreatedAtDesc :=
      List.mem_of_mem_drop (List.mem_of_mem_take hd)
    have hd2 : d ∈ s.filter (docMatches search) :=
      ((List.perm_insertionSort byCreatedAtDesc _).mem_iff).mp hd1
    have hd3 := List.mem_filter.mp hd2
    exact ⟨d, hd3.1, hd3.2, rfl⟩
  · show (((((s.filter (docMatches search)).insertionSort
        byCreatedAtDesc).drop offset).take limit).map
          documentToInvoice).Pairwise (fun a b => b.createdAt ≤ a.createdAt)
    rw [List.pairwise_map]
    have hs : ((s.filter (docMatches search)).insertionSort
        byCreatedAtDesc).Pairwise byCreatedAtDesc :=
      List.sorted_insertionSort byCreatedAtDesc _
    exact List.Pairwise.sublist
      ((List.take_sublist _ _).trans (List.drop_sublist _ _)) hs
  · show (((((s.filter (docMatches search)).insertionSort
        byCreatedAtDesc).drop offset).take limit).map
          documentToInvoice).length ≤ limit
    rw [List.length_map]
    exact List.length_take_le _ _
  · show ((((s.filter (docMatches none)).insertionSort
        byCreatedAtDesc).drop offset).take limit).map documentToInvoice
      = (((s.insertionSort byCreatedAtDesc).drop offset).take limit).map
          documentToInvoice
    rw [hfilt]
  · show (s.filter (docMatches none)).length = s.length
    rw [hfilt]

/-- C5 witness: a search for "techcorp" concretely matches the stored record
whose vendor name is "TechCorp Solutions". -/
theorem getInvoices_search_semantics_witness :
    documentToInvoice sampleDoc
      ∈ (getInvoices false [sampleDoc] (some "techcorp") 10 0).invoices ∧
    ∃ d ∈ [sampleDoc], docMatches (some "techcorp") d = true ∧
      documentToInvoice sampleDoc = documentToInvoice d := by
  have hpage : (getInvoices false [sampleDoc] (some "techcorp") 10 0).invoices
      = [documentToInvoice sampleDoc] := rfl
  have hmem : documentToInvoice sampleDoc
      ∈ (getInvoices false [sampleDoc] (some "techcorp") 10 0).invoices := by
    rw [hpage]
    exact List.mem_singleton_self _
  exact ⟨hmem,
    (getInvoices_search_semantics [sampleDoc] (some "techcorp") 10 0).2.2.1
      (documentToInvoice sampleDoc) hmem⟩
